import Mathlib

/-!
Shallow embedding of the dual-listener web server (src/server.go and the
entry-point file) together with the behaviour of the Go standard-library
collaborators the code calls, settled against the frozen claims.

Conventions:
- Go errors are modelled by the inductive `GoErr`; a Go `error` value that may
  be nil is `Option GoErr` (`none` = nil).
- The random oracle of `crypto/rand` is pre-sampled: the i-th call of
  `rand.Int(rand.Reader, 63)` is the i-th entry of a `List (Option Nat)`;
  `none` models a failing draw (rand.Int returns a nil big.Int and an error
  that line 98 of server.go discards).
- Concurrency is resolved by explicit scheduling parameters: which branch of a
  `select` fires, and the order in which the two errgroup goroutines complete.
-/

namespace ServerConcurrent

/-- Go error values that occur in this program.  `serverClosed` is the
sentinel `http.ErrServerClosed`; `contextCanceled` is `context.Canceled`;
`bindError` stands for a listen/accept failure such as an address already in
use or a permission denial. -/
inductive GoErr where
  | serverClosed
  | contextCanceled
  | bindError (msg : String)
deriving DecidableEq

/-- The `Server` struct of server.go lines 17-20. -/
structure Server where
  httpAddr : String
  httpsAddr : String
deriving DecidableEq

/-- `NewServer` of server.go lines 22-24. -/
def NewServer (httpAddr httpsAddr : String) : Server :=
  { httpAddr := httpAddr, httpsAddr := httpsAddr }

/-- The server built by `main` in the entry-point file:
`NewServer(":8081", ":8082")`. -/
def mainServer : Server := NewServer ":8081" ":8082"

/-! ## The cancellable execution scope and the signal source -/

/-- The shared cancellable context: only its cancellation flag is observable
by the tasks. -/
structure Scope where
  cancelled : Bool
deriving DecidableEq

/-- `context.CancelFunc`: sets the flag; calling it again changes nothing
(Go contexts are cancelled at most once and stay cancelled). -/
def cancelScope (_s : Scope) : Scope := { cancelled := true }

/-- Modelled from `signal.NotifyContext` (server.go line 28): delivering a
termination signal (SIGINT/SIGTERM) cancels the derived context; a signal
that arrives when the context is already cancelled is dropped by the
already-exited watcher goroutine and changes nothing.  Note the separate
goroutine of server.go lines 39-43 blocks forever on `signalChan`, which is
never registered with `signal.Notify`; the cancellation behaviour on a signal
comes entirely from `signal.NotifyContext`. -/
def deliverSignal (s : Scope) : Scope :=
  if s.cancelled then s else cancelScope s

/-! ## The errgroup -/

/-- State of an `errgroup.Group` created by `errgroup.WithContext`
(server.go line 32): the first non-nil error returned by a goroutine, and
whether the derived group context has been cancelled. -/
structure GroupState where
  firstErr : Option GoErr
  cancelled : Bool
deriving DecidableEq

def GroupState.init : GroupState := { firstErr := none, cancelled := false }

/-- Modelled from `errgroup`: when a goroutine completes with result `res`,
a non-nil error is recorded once (`sync.Once`) and cancels the group
context; a nil result changes nothing. -/
def groupRecord (s : GroupState) (res : Option GoErr) : GroupState :=
  match res with
  | none => s
  | some e => if s.firstErr = none then { firstErr := some e, cancelled := true } else s

/-- Group state after the goroutines completed, in completion order. -/
def groupStateAfter (results : List (Option GoErr)) : GroupState :=
  results.foldl groupRecord GroupState.init

/-- `g.Wait()`: returns the first non-nil error, nil when every goroutine
was clean. -/
def groupWait (results : List (Option GoErr)) : Option GoErr :=
  (groupStateAfter results).firstErr

/-- `Server.Run` (server.go lines 26-53) returns exactly what `g.Wait()`
returns for its two listener goroutines: the two results are given in
completion order. -/
def ServerRun (first second : Option GoErr) : Option GoErr :=
  groupWait [first, second]

/-! ## One listener task -/

/-- The goroutine of server.go lines 72-78 (and 120-126): the result of
`ListenAndServe` is forwarded on `errChan` only when it is non-nil and
different from `http.ErrServerClosed`.  (Line 75 compares with `!=`,
line 122 with `errors.Is`; over the unwrapped `GoErr` values both are
plain equality.) -/
def errChanMsg (listenRes : Option GoErr) : Option GoErr :=
  match listenRes with
  | none => none
  | some e => if e = GoErr.serverClosed then none else some e

/-- Modelled from Go stdlib `net/http`: `(*Server).Shutdown(ctx)` closes the
listeners, then returns nil as soon as every connection is idle, but returns
the error of `ctx` once `ctx` is done.  Server.go lines 84 and 132 pass the
scope context that is ALREADY cancelled when that branch runs, so the very
first poll returns nil when no connection is active and `context.Canceled`
otherwise. -/
def shutdownResult (activeConns : Nat) : Option GoErr :=
  if activeConns = 0 then none else some GoErr.contextCanceled

/-- Which branch of the `select` at server.go lines 80-87 / 128-135 fires. -/
inductive SelectPick where
  | ctxDone
  | errChanReady
deriving DecidableEq

/-- Scheduling environment of one listener task: the eventual result of its
`ListenAndServe`, the branch its `select` takes, the number of connections in
flight when shutdown begins, and whether the scope context is cancelled. -/
structure ServeEnv where
  listenRes : Option GoErr
  pick : SelectPick
  activeConns : Nat
  ctxCancelled : Bool
deriving DecidableEq

/-- A scheduling environment is feasible when the selected branch is ready:
the ctx branch needs a cancelled scope, the errChan branch needs a message in
the channel. -/
def envFeasible (env : ServeEnv) : Prop :=
  (env.pick = SelectPick.ctxDone → env.ctxCancelled = true) ∧
  (env.pick = SelectPick.errChanReady → errChanMsg env.listenRes ≠ none)

/-- The `select` shared by `httpServer` (lines 80-87) and `httpsServer`
(lines 128-135): on `ctx.Done()` the task disables keep-alives and returns
`Shutdown(ctx)`; on `errChan` it returns the received accept-loop error. -/
def serveSelect (env : ServeEnv) : Option GoErr :=
  match env.pick with
  | SelectPick.ctxDone => shutdownResult env.activeConns
  | SelectPick.errChanReady => errChanMsg env.listenRes

/-- The environment of a listener whose scope was cancelled while it served
without an accept-loop failure: `ListenAndServe` ends with the
intentional-close sentinel once `Shutdown` closes the socket, the `select`
takes the `ctx.Done()` branch, and `active` connections are in flight when
shutdown begins. -/
def cancelledEnv (active : Nat) : ServeEnv :=
  { listenRes := some GoErr.serverClosed, pick := SelectPick.ctxDone,
    activeConns := active, ctxCancelled := true }

/-- The environment of a listener whose accept loop failed with `e` and
whose `select` receives that error from `errChan` first. -/
def failedEnv (e : GoErr) (active : Nat) (c : Bool) : ServeEnv :=
  { listenRes := some e, pick := SelectPick.errChanReady,
    activeConns := active, ctxCancelled := c }

/-! ## Per-listener configuration -/

/-- Timeout configuration of the `http.Server` literals at lines 61-67 and
110-116, in seconds. -/
structure HttpServerCfg where
  addr : String
  readTimeoutSec : Nat
  writeTimeoutSec : Nat
  idleTimeoutSec : Nat
deriving DecidableEq

/-- The `http.Server` literal of `httpServer` (server.go lines 61-67):
ReadTimeout 5s, WriteTimeout 10s, IdleTimeout 15s. -/
def httpServerCfg (addr : String) : HttpServerCfg :=
  { addr := addr, readTimeoutSec := 5, writeTimeoutSec := 10, idleTimeoutSec := 15 }

/-- The `http.Server` literal of `httpsServer` (server.go lines 110-116):
ReadTimeout 5s, WriteTimeout 10s, IdleTimeout 15s. -/
def httpsServerCfg (addr : String) : HttpServerCfg :=
  { addr := addr, readTimeoutSec := 5, writeTimeoutSec := 10, idleTimeoutSec := 15 }

/-- How a listener serves its accepted TCP connections. -/
inductive ServeMode where
  | plaintext
  | tls
deriving DecidableEq

/-- `httpServer` starts its accept loop with `ListenAndServe` (line 75):
plaintext TCP. -/
def httpServerMode : ServeMode := ServeMode.plaintext

/-- `httpsServer` also starts its accept loop with `ListenAndServe`
(line 122), not `ListenAndServeTLS`; no certificate, key or `TLSConfig`
appears anywhere in the program, so its connections are plaintext TCP. -/
def httpsServerMode : ServeMode := ServeMode.plaintext

/-! ## Route tables -/

/-- Identifies one of the three handler functions of server.go. -/
inductive HandlerId where
  | httpHandlerId
  | errorHandlerId
  | acmeChallengeFiles
deriving DecidableEq

/-- One `mux.HandleFunc` / `mux.Handle` registration: method, path of the
pattern, whether the pattern ends in a slash (and hence matches the whole
subtree), and the registered handler. -/
structure Route where
  method : String
  path : String
  subtree : Bool
  handler : HandlerId
deriving DecidableEq

/-- The registration `mux.HandleFunc("GET /", httpHandler)`. -/
def rootRoute : Route :=
  { method := "GET", path := "/", subtree := true, handler := HandlerId.httpHandlerId }

/-- The registration `mux.HandleFunc("GET /error", errorHandler)`. -/
def errorRoute : Route :=
  { method := "GET", path := "/error", subtree := false, handler := HandlerId.errorHandlerId }

/-- The registration of the stripped acme-challenge subtree onto the
`http.FileServer` over the challenge directory. -/
def acmeRoute : Route :=
  { method := "GET", path := "/.well-known/acme-challenge/", subtree := true,
    handler := HandlerId.acmeChallengeFiles }

/-- The mux of `httpServer` (server.go lines 56-59): `GET /` to
`httpHandler`, `GET /error` to `errorHandler`, and the acme-challenge
subtree to a `http.FileServer` whose matched path part is stripped. -/
def httpServerRoutes : List Route := [rootRoute, errorRoute, acmeRoute]

/-- The mux of `httpsServer` (server.go lines 106-108): only `GET /` and the
acme-challenge subtree are registered; there is no registration whose path is
`/error`. -/
def httpsServerRoutes : List Route := [rootRoute, acmeRoute]

/-! ## generateRandomString and the handlers -/

/-- The alphabet constant `letters` of server.go line 95: ten digits,
twenty-six uppercase letters, twenty-six lowercase letters, and a hyphen. -/
def letters : String :=
  "0123456789ABCDEFGHIJKLMNOPQRSTUVWXYZabcdefghijklmnopqrstuvwxyz-"

/-- Where `generateRandomString` draws its randomness. -/
inductive ReaderKind where
  | cryptoRand
  | insecureSource
deriving DecidableEq

/-- The reader passed to `rand.Int` at server.go line 98 is `rand.Reader`
of package `crypto/rand`, the cryptographically secure source. -/
def randSourceKind : ReaderKind := ReaderKind.cryptoRand

/-- The loop body of `generateRandomString` (server.go lines 97-101): the
i-th iteration consumes the i-th oracle entry.  `none` models a failing
`rand.Int`: the discarded error leaves `num` a nil `big.Int`, and
`num.Int64()` dereferences it, so the whole call has no defined result.  On
a successful draw `k` the character `letters[k]` is appended; an index
outside the alphabet would equally leave the result undefined. -/
def fill : Nat → List (Option Nat) → Option (List Char)
  | 0, _ => some []
  | _ + 1, [] => none
  | n + 1, d :: rest =>
    match d with
    | none => none
    | some k =>
      match letters.data.get? k with
      | none => none
      | some c => (fill n rest).map (fun cs => c :: cs)

/-- `generateRandomString` (server.go lines 94-103) over a pre-sampled
oracle: `n` characters, each drawn by `rand.Int(rand.Reader, 63)` and looked
up in `letters`. -/
def generateRandomString (n : Nat) (draws : List (Option Nat)) : Option String :=
  (fill n draws).map String.mk

/-- `httpHandler` (server.go lines 90-92): writes
`fmt.Fprintf(w, "Hello World %s", generateRandomString(10))`. -/
def httpHandlerBody (draws : List (Option Nat)) : Option String :=
  (generateRandomString 10 draws).map (fun s => "Hello World " ++ s)

/-! ## Request dispatch and per-connection fault containment -/

structure Request where
  method : String
  path : String
deriving DecidableEq

/-- Whether one registration matches a request: same method, and either an
exact path or, for a subtree pattern, the pattern path leading the request
path. -/
def routeMatches (r : Route) (m p : String) : Bool :=
  r.method == m && (if r.subtree then r.path.data.isPrefixOf p.data else r.path == p)

/-- Modelled from Go 1.22 `net/http.ServeMux`: among the registered patterns
that match the request, the most specific one wins; for the patterns this
program registers, specificity is the pattern path length. -/
def muxDispatch (routes : List Route) (m p : String) : Option Route :=
  (routes.filter (fun r => routeMatches r m p)).foldl
    (fun best r =>
      match best with
      | none => some r
      | some b => if b.path.length < r.path.length then some r else some b)
    none

/-- What one handler invocation does. -/
inductive HandlerOutcome where
  | ok (status : Nat) (body : String)
  | panicked (msg : String)
deriving DecidableEq

/-- Run the handler a route points at.  `fs` is the content of the
challenge directory (path after the stripped pattern to file bytes);
`draws` is the random oracle for this request.  `errorHandler`
(server.go lines 138-141) unconditionally raises the fault
"simulated server crash".  A failing random draw inside `httpHandler`
surfaces as the nil-dereference fault of server.go line 100. -/
def runHandler (r : Route) (fs : String → Option String)
    (draws : List (Option Nat)) (reqPath : String) : HandlerOutcome :=
  match r.handler with
  | HandlerId.httpHandlerId =>
    match httpHandlerBody draws with
    | some body => HandlerOutcome.ok 200 body
    | none => HandlerOutcome.panicked "runtime error: invalid memory address or nil pointer dereference"
  | HandlerId.errorHandlerId => HandlerOutcome.panicked "simulated server crash"
  | HandlerId.acmeChallengeFiles =>
    match fs (reqPath.drop r.path.length) with
    | some body => HandlerOutcome.ok 200 body
    | none => HandlerOutcome.ok 404 "404 page not found"

/-- Outcome of one connection as the client sees it. -/
inductive ConnOutcome where
  | response (status : Nat) (body : String)
  | aborted (msg : String)
deriving DecidableEq

/-- Modelled from Go stdlib `net/http`: each accepted connection is served
on its own goroutine, and `conn.serve` recovers a panicking handler, logs
it, and closes only that connection — the accept loop and the listener
state are untouched.  A request with no matching pattern gets the mux
404. -/
def serveConn (routes : List Route) (fs : String → Option String)
    (draws : List (Option Nat)) (req : Request) : ConnOutcome :=
  match muxDispatch routes req.method req.path with
  | none => ConnOutcome.response 404 "404 page not found"
  | some r =>
    match runHandler r fs draws req.path with
    | HandlerOutcome.ok st b => ConnOutcome.response st b
    | HandlerOutcome.panicked m => ConnOutcome.aborted m

/-- The accept loop serving a sequence of requests (each with its own random
oracle): every request is served, also after one of them panicked, because
the panic is contained in that connection. -/
def serveAll (routes : List Route) (fs : String → Option String)
    (reqs : List (Request × List (Option Nat))) : List ConnOutcome :=
  reqs.map (fun q => serveConn routes fs q.2 q.1)

/-! ## Helper lemmas -/

lemma fill_some_of_valid : ∀ (n : Nat) (draws : List (Option Nat)),
    draws.length = n →
    (∀ d ∈ draws, ∃ k, d = some k ∧ k < 63) →
    ∃ cs, fill n draws = some cs ∧ cs.length = n ∧ ∀ c ∈ cs, c ∈ letters.data := by
  intro n
  induction n with
  | zero =>
    intro draws _ _
    exact ⟨[], rfl, rfl, by simp⟩
  | succ m ih =>
    intro draws hlen hvalid
    match draws with
    | [] => simp at hlen
    | d :: rest =>
      obtain ⟨k, hd, hk⟩ := hvalid d (List.mem_cons_self d rest)
      have hrest : rest.length = m := by simpa using hlen
      obtain ⟨cs, hcs, hlen2, hmem⟩ :=
        ih rest hrest (fun x hx => hvalid x (List.mem_cons_of_mem d hx))
      have hklen : k < letters.data.length := by
        have h63 : letters.data.length = 63 := by decide
        omega
      have hget : letters.data.get? k = some (letters.data.get ⟨k, hklen⟩) :=
        List.get?_eq_get hklen
      refine ⟨letters.data.get ⟨k, hklen⟩ :: cs, ?_, by simp [hlen2], ?_⟩
      · simp only [fill, hd, hget, hcs]; rfl
      · intro c hc
        rcases List.mem_cons.mp hc with h | h
        · subst h; exact List.get_mem letters.data k hklen
        · exact hmem c h

lemma generateRandomString_of_valid (n : Nat) (draws : List (Option Nat))
    (hlen : draws.length = n)
    (hvalid : ∀ d ∈ draws, ∃ k, d = some k ∧ k < 63) :
    ∃ s : String, generateRandomString n draws = some s ∧ s.length = n ∧
      ∀ c ∈ s.data, c ∈ letters.data := by
  obtain ⟨cs, hcs, hl, hm⟩ := fill_some_of_valid n draws hlen hvalid
  exact ⟨String.mk cs, by simp [generateRandomString, hcs], by simpa [String.length], hm⟩

lemma groupRecord_after_err (e : GoErr) (x : Option GoErr) :
    groupRecord { firstErr := some e, cancelled := true } x
      = { firstErr := some e, cancelled := true } := by
  cases x <;> simp [groupRecord]

lemma groupStateAfter_pair_err (e : GoErr) (x : Option GoErr) :
    groupStateAfter [some e, x] = { firstErr := some e, cancelled := true } := by
  show groupRecord (groupRecord GroupState.init (some e)) x = _
  have h1 : groupRecord GroupState.init (some e) = { firstErr := some e, cancelled := true } := by
    simp [groupRecord, GroupState.init]
  rw [h1, groupRecord_after_err]

lemma deliverSignal_eq_cancelled (s : Scope) :
    deliverSignal s = { cancelled := true } := by
  cases s with
  | mk c => cases c <;> simp [deliverSignal, cancelScope]

lemma foldl_deliverSignal_cancelled (extra : List Unit) :
    extra.foldl (fun t _ => deliverSignal t) { cancelled := true }
      = ({ cancelled := true } : Scope) := by
  induction extra with
  | nil => rfl
  | cons a rest ih => simpa [List.foldl, deliverSignal_eq_cancelled] using ih

/-! ## Claim theorems -/

/-- C1: evaluation at the failing input.  The claim says that cancellation of
the shared scope while a listener serves without an accept-loop error always
yields a clean (nil) outcome, hence `Server.Run` returns nil when a
termination signal arrives and no listener failed.  Because server.go line 84
(and 132) passes the ALREADY-cancelled scope context to `Shutdown`, a
listener with one in-flight connection returns `context.Canceled`, and
`Server.Run` then returns that non-nil error; only with no active connection
is the outcome clean (third conjunct). -/
theorem c1_shutdown_with_cancelled_ctx_eval :
    serveSelect (cancelledEnv 1) = some GoErr.contextCanceled ∧
    ServerRun (serveSelect (cancelledEnv 1)) (serveSelect (cancelledEnv 0))
      = some GoErr.contextCanceled ∧
    serveSelect (cancelledEnv 0) = none := by
  decide

/-- C2: fail-fast error policy.  If one listener task completes first with a
non-nil error `e` (its accept loop failed with an error other than the
intentional-close sentinel), then that task returns `e`, the errgroup records
`e` and cancels the shared scope (so the sibling observes cancellation and
takes its graceful-shutdown branch), and `Server.Run` returns `e` — whatever
the graceful shutdown of the sibling then yields. -/
theorem c2_fail_fast (e : GoErr) (he : e ≠ GoErr.serverClosed)
    (aFail sibActive : Nat) (cFail : Bool) :
    envFeasible (failedEnv e aFail cFail) ∧
    serveSelect (failedEnv e aFail cFail) = some e ∧
    (groupStateAfter
      [serveSelect (failedEnv e aFail cFail), serveSelect (cancelledEnv sibActive)]).cancelled
      = true ∧
    ServerRun (serveSelect (failedEnv e aFail cFail)) (serveSelect (cancelledEnv sibActive))
      = some e := by
  have h1 : serveSelect (failedEnv e aFail cFail) = some e := by
    simp [serveSelect, failedEnv, errChanMsg, he]
  refine ⟨⟨fun h => by simp [failedEnv] at h, fun _ => ?_⟩, h1, ?_, ?_⟩
  · simp [failedEnv, errChanMsg, he]
  · rw [h1, groupStateAfter_pair_err]
  · rw [h1]
    show (groupStateAfter _).firstErr = some e
    rw [groupStateAfter_pair_err]

/-- C2 witness: a bind failure on the first listener, the sibling idle. -/
theorem c2_fail_fast_witness :
    (GoErr.bindError "address already in use" ≠ GoErr.serverClosed) ∧
    (envFeasible (failedEnv (GoErr.bindError "address already in use") 0 false) ∧
      serveSelect (failedEnv (GoErr.bindError "address already in use") 0 false)
        = some (GoErr.bindError "address already in use") ∧
      (groupStateAfter
        [ serveSelect (failedEnv (GoErr.bindError "address already in use") 0 false),
          serveSelect (cancelledEnv 0) ]).cancelled = true ∧
      ServerRun (serveSelect (failedEnv (GoErr.bindError "address already in use") 0 false))
        (serveSelect (cancelledEnv 0))
        = some (GoErr.bindError "address already in use")) :=
  ⟨by decide, c2_fail_fast (GoErr.bindError "address already in use") (by decide) 0 0 false⟩

/-- C3: evaluation showing the second listener does not use encrypted
transport.  `httpsServer` starts its accept loop with `ListenAndServe`
(server.go line 122) and no TLS material exists anywhere in the program, so
the listener bound to `httpsAddr` (`:8082` in `main`) serves plaintext. -/
theorem c3_https_plaintext_eval :
    httpsServerMode = ServeMode.plaintext ∧
    httpsServerMode ≠ ServeMode.tls ∧
    mainServer.httpsAddr = ":8082" := by
  decide

/-- C4: signal-triggered cancellation is exactly-once, idempotent and
monotonic.  One delivered termination signal cancels the scope; a second
delivery changes nothing; any further sequence of deliveries changes
nothing; a signal arriving at an already-cancelled scope (e.g. cancelled
after a task failure) leaves it untouched; and the cancel function itself is
idempotent.  All operations are total, so no delivery can raise a fault. -/
theorem c4_signal_idempotent (s : Scope) (extra : List Unit) :
    (deliverSignal s).cancelled = true ∧
    deliverSignal (deliverSignal s) = deliverSignal s ∧
    extra.foldl (fun t _ => deliverSignal t) (deliverSignal s) = deliverSignal s ∧
    deliverSignal { cancelled := true } = ({ cancelled := true } : Scope) ∧
    cancelScope (cancelScope s) = cancelScope s := by
  have hs := deliverSignal_eq_cancelled s
  refine ⟨by rw [hs], ?_, ?_, ?_, rfl⟩
  · rw [hs, deliverSignal_eq_cancelled]
  · rw [hs, foldl_deliverSignal_cancelled]
  · exact deliverSignal_eq_cancelled _

/-- C5: evaluation at the failing input.  The claim says a listener task
returns a non-clean error only when its listen/accept operation fails with
an error other than `http.ErrServerClosed`.  Here the accept loop ended with
exactly the intentional-close sentinel (so nothing was put on `errChan`,
first conjunct), yet the task returns the non-clean `context.Canceled`,
because `Shutdown` receives the already-cancelled scope context while one
connection is in flight. -/
theorem c5_nonclean_without_listen_failure_eval :
    errChanMsg (some GoErr.serverClosed) = none ∧
    (cancelledEnv 1).listenRes = some GoErr.serverClosed ∧
    serveSelect (cancelledEnv 1) ≠ none ∧
    serveSelect (cancelledEnv 1) = some GoErr.contextCanceled := by
  decide

/-- C6 counterexample: the claim says both listeners register a handler for
`GET /error`; the mux of `httpsServer` (server.go lines 106-108) has no
registration whose path is `/error`. -/
theorem c6_https_missing_error_route_cx :
    ¬ ∃ r ∈ httpsServerRoutes, r.method = "GET" ∧ r.path = "/error" := by
  decide

/-- C6 as amended: the plaintext listener registers the full route set
(`GET /`, `GET /error`, and the acme-challenge subtree with stripped-path
file serving), while the second listener registers only `GET /` and the
acme-challenge subtree — none of its registrations points at
`errorHandler`. -/
theorem c6_routes_amended :
    rootRoute ∈ httpServerRoutes ∧
    errorRoute ∈ httpServerRoutes ∧
    acmeRoute ∈ httpServerRoutes ∧
    rootRoute ∈ httpsServerRoutes ∧
    acmeRoute ∈ httpsServerRoutes ∧
    errorRoute.method = "GET" ∧ errorRoute.path = "/error" ∧
    errorRoute.handler = HandlerId.errorHandlerId ∧
    (∀ r ∈ httpsServerRoutes, r.handler ≠ HandlerId.errorHandlerId) := by
  decide

/-- C7: fault containment.  On the plaintext listener, a `GET /error`
request raises the fault "simulated server crash" of `errorHandler`; it is
recovered at the connection level (the outcome is `aborted`, reported only
to that caller), the accept loop serves the next request, and a subsequent
`GET /` on the same listener succeeds with the greeting and a fresh
10-character token — for any challenge-directory content and any successful
random draws. -/
theorem c7_fault_containment (fs : String → Option String) (draws : List (Option Nat))
    (hlen : draws.length = 10)
    (hvalid : ∀ d ∈ draws, ∃ k, d = some k ∧ k < 63) :
    ∃ tok : String, tok.length = 10 ∧
      serveAll httpServerRoutes fs
        [ ({ method := "GET", path := "/error" }, []),
          ({ method := "GET", path := "/" }, draws) ] =
        [ ConnOutcome.aborted "simulated server crash",
          ConnOutcome.response 200 ("Hello World " ++ tok) ] := by
  obtain ⟨s, hs, hslen, _⟩ := generateRandomString_of_valid 10 draws hlen hvalid
  have hb : httpHandlerBody draws = some ("Hello World " ++ s) := by
    simp [httpHandlerBody, hs]
  have hm1 : muxDispatch httpServerRoutes "GET" "/error" = some errorRoute := by decide
  have hm2 : muxDispatch httpServerRoutes "GET" "/" = some rootRoute := by decide
  refine ⟨s, hslen, ?_⟩
  simp [serveAll, serveConn, hm1, hm2, runHandler, rootRoute, errorRoute, hb]

/-- C7 witness: the constant-zero oracle and an empty challenge directory. -/
theorem c7_fault_containment_witness :
    (List.replicate 10 (some 0) : List (Option Nat)).length = 10 ∧
    (∃ tok : String, tok.length = 10 ∧
      serveAll httpServerRoutes (fun _ => none)
        [ ({ method := "GET", path := "/error" }, []),
          ({ method := "GET", path := "/" }, List.replicate 10 (some 0)) ] =
        [ ConnOutcome.aborted "simulated server crash",
          ConnOutcome.response 200 ("Hello World " ++ tok) ]) :=
  ⟨by simp, c7_fault_containment (fun _ => none) (List.replicate 10 (some 0)) (by simp)
    (fun d hd => ⟨0, by simpa using List.eq_of_mem_replicate hd, by omega⟩)⟩

/-- C8: shape of the greeting token.  With ten successful draws the greeting
body is `Hello World ` followed by the token of `generateRandomString(10)`:
its length is 10, each of its characters belongs to `letters`, `letters` has
the 63 symbols digit/uppercase/lowercase/hyphen, and the draws come from the
`crypto/rand` reader. -/
theorem c8_token_shape (draws : List (Option Nat))
    (hlen : draws.length = 10)
    (hvalid : ∀ d ∈ draws, ∃ k, d = some k ∧ k < 63) :
    ∃ s : String, generateRandomString 10 draws = some s ∧
      httpHandlerBody draws = some ("Hello World " ++ s) ∧
      s.length = 10 ∧
      (∀ c ∈ s.data, c ∈ letters.data) ∧
      letters.length = 63 ∧
      (∀ c ∈ letters.data,
        c.isDigit = true ∨ c.isUpper = true ∨ c.isLower = true ∨ c = '-') ∧
      randSourceKind = ReaderKind.cryptoRand := by
  obtain ⟨s, hs, hl, hm⟩ := generateRandomString_of_valid 10 draws hlen hvalid
  exact ⟨s, hs, by simp [httpHandlerBody, hs], hl, hm, by decide, by decide, rfl⟩

/-- C8 witness: the constant-zero oracle. -/
theorem c8_token_shape_witness :
    (List.replicate 10 (some 0) : List (Option Nat)).length = 10 ∧
    (∃ s : String, generateRandomString 10 (List.replicate 10 (some 0)) = some s ∧
      httpHandlerBody (List.replicate 10 (some 0)) = some ("Hello World " ++ s) ∧
      s.length = 10 ∧
      (∀ c ∈ s.data, c ∈ letters.data) ∧
      letters.length = 63 ∧
      (∀ c ∈ letters.data,
        c.isDigit = true ∨ c.isUpper = true ∨ c.isLower = true ∨ c = '-') ∧
      randSourceKind = ReaderKind.cryptoRand) :=
  ⟨by simp, c8_token_shape (List.replicate 10 (some 0)) (by simp)
    (fun d hd => ⟨0, by simpa using List.eq_of_mem_replicate hd, by omega⟩)⟩

/-- C9: both `http.Server` literals carry exactly the specified bounded
per-request timeouts: read 5s, write 10s, idle 15s, whatever addresses the
listeners are configured with. -/
theorem c9_timeouts (addr1 addr2 : String) :
    (httpServerCfg addr1).readTimeoutSec = 5 ∧
    (httpServerCfg addr1).writeTimeoutSec = 10 ∧
    (httpServerCfg addr1).idleTimeoutSec = 15 ∧
    (httpsServerCfg addr2).readTimeoutSec = 5 ∧
    (httpsServerCfg addr2).writeTimeoutSec = 10 ∧
    (httpsServerCfg addr2).idleTimeoutSec = 15 :=
  ⟨rfl, rfl, rfl, rfl, rfl, rfl⟩

/-- C10: the discarded `rand.Int` error.  When every draw succeeds (and is
below 63, as `rand.Int` guarantees), the result is a defined string of the
requested length; but the very first failing draw leaves the function with no
defined result (`none` models the nil `big.Int` dereference at server.go
line 100), so safety is conditional on a never-failing random source. -/
theorem c10_rand_error_unsafe :
    (∀ (n : Nat) (draws : List (Option Nat)), 0 < n → draws.length = n →
      (∀ d ∈ draws, ∃ k, d = some k ∧ k < 63) →
      ∃ s : String, generateRandomString n draws = some s ∧ s.length = n) ∧
    generateRandomString 3 [some 0, none, some 5] = none ∧
    (∀ (n : Nat) (rest : List (Option Nat)),
      generateRandomString (n + 1) (none :: rest) = none) := by
  refine ⟨?_, by decide, fun n rest => rfl⟩
  intro n draws _ hlen hvalid
  obtain ⟨s, hs, hl, _⟩ := generateRandomString_of_valid n draws hlen hvalid
  exact ⟨s, hs, hl⟩

/-- C10 witness: one successful zero draw, and a failing middle draw. -/
theorem c10_rand_error_unsafe_witness :
    0 < 1 ∧ ([some 0] : List (Option Nat)).length = 1 ∧
    (∃ s : String, generateRandomString 1 [some 0] = some s ∧ s.length = 1) ∧
    generateRandomString 3 [some 0, none, some 5] = none :=
  ⟨by decide, by decide,
    c10_rand_error_unsafe.1 1 [some 0] (by decide) (by decide)
      (fun d hd => ⟨0, by simpa using hd, by omega⟩),
    c10_rand_error_unsafe.2.1⟩

end ServerConcurrent
